import Mathlib

/-!
Shallow embedding of the client-side logic of the SoF Event Extractor
frontend (React), covering the Results page polling loop, the export and
retry actions, the upload form acceptance rules, the result table warning
handling, and the timeline visualization data processing.

Each definition is translated from the corresponding JavaScript source:
  frontend/src/pages/Results.jsx
  frontend/src/components/AuthWrapper.jsx (UploadForm)
  frontend/src/components/Header.jsx (ResultTable)
  frontend/src/components/Timeline.jsx
-/

namespace Sof

/-- An event object as delivered by the backend inside a job record and
consumed by the frontend components. Optional fields model JavaScript
fields that may be absent (`none`) or present (`some`); an absent field and
an empty string are both falsy in the source, which the definitions below
reproduce where the source tests truthiness. The JavaScript field `end` is
rendered here as `end_` because `end` is a Lean keyword. -/
structure Event where
  event : String
  start : Option String
  end_ : Option String
  location : Option String
  description : Option String
  severity : Option String
  suggestion : Option String
deriving DecidableEq

/-- The three kinds of backend requests the modelled components issue:
document upload (POST /api/upload, creating a new job), result fetch
(GET /api/result/jobId), and export (POST /api/export/jobId?type=kind). -/
inductive ApiRequest where
  | uploadDocument
  | fetchResult (jobId : String)
  | exportJob (jobId : String) (kind : String)
deriving DecidableEq

/-! ### Results page: polling loop (Results.jsx, fetchResults) -/

/-- Results.jsx line 28: `const maxRetries = 30`. -/
def maxRetries : Nat := 30

/-- The possible dispositions of one `fetchResults` invocation:
schedule another poll after 2000 ms (`repoll`), stop with the error
message about processing taking longer than expected (`timeoutStop`),
stop on a terminal status (`stopCompleted`, `stopFailed`), stop on an
unrecognized status (`stopOther`), or stop because the request itself
threw (`stopFetchError`, the catch branch). -/
inductive FetchOutcome where
  | repoll
  | timeoutStop
  | stopCompleted
  | stopFailed
  | stopOther
  | stopFetchError
deriving DecidableEq

/-- The branch structure of `fetchResults` (Results.jsx lines 36-72).
`retryCount` is the retry counter value that this invocation reads (the
value held by the closure that is running); `result` is `some status` for
a successful fetch of a job with that status and `none` when the request
threw (the catch branch). -/
def fetchOutcome (retryCount : Nat) (result : Option String) : FetchOutcome :=
  match result with
  | none => FetchOutcome.stopFetchError
  | some status =>
    if status = "processing" ∧ retryCount < maxRetries then FetchOutcome.repoll
    else if status = "processing" ∧ maxRetries ≤ retryCount then FetchOutcome.timeoutStop
    else if status = "completed" then FetchOutcome.stopCompleted
    else if status = "failed" then FetchOutcome.stopFailed
    else FetchOutcome.stopOther

/-- Whether an invocation outcome schedules another poll. -/
def FetchOutcome.isRepoll : FetchOutcome → Bool
  | FetchOutcome.repoll => true
  | _ => false

/-- The polling chain started by the mount effect of the Results page.
The `setTimeout` callback created inside `fetchResults` re-invokes the
very same `fetchResults` closure it was created in, so every invocation
of the chain reads the same captured `retryCount` value, namely
`captured` (0 for the chain started by the mount effect); the
`setRetryCount` updates only affect the separately rendered React state,
never the value the guard on line 48 reads. Given the list of statuses
returned by the successive fetches, this computes whether one more fetch
is scheduled after all of them have been consumed. -/
def chainSchedulesNext (captured : Nat) : List String → Bool
  | [] => true
  | s :: rest =>
      (fetchOutcome captured (some s)).isRepoll && chainSchedulesNext captured rest

/-! ### Results page: retry and export actions (Results.jsx) -/

/-- The state changes and the request issued by `handleRetry`
(Results.jsx lines 109-114). -/
structure RetryEffect where
  loading : Bool
  error : Option String
  retryCount : Nat
  request : ApiRequest
deriving DecidableEq

/-- `handleRetry` (Results.jsx lines 109-114): set loading, clear the
error, reset the retry counter, and call `fetchResults`, which issues a
GET of /api/result/jobId for the same job id. -/
def handleRetry (jobId : String) : RetryEffect :=
  { loading := true
    error := none
    retryCount := 0
    request := ApiRequest.fetchResult jobId }

/-- The request issued and the suggested download filename produced by
one export action. -/
structure ExportAction where
  request : ApiRequest
  downloadName : String
deriving DecidableEq

/-- `handleExport` (Results.jsx lines 74-107): POST to
/api/export/jobId?type=format and trigger a download of the response
bytes under the filename built on line 93. -/
def handleExport (jobId : String) (format : String) : ExportAction :=
  { request := ApiRequest.exportJob jobId format
    downloadName := "sof_events_" ++ jobId.take 8 ++ "." ++ format }

/-- The two export kinds offered by the ResultTable buttons
(Header.jsx ResultTable lines 223-237): onExport is invoked with
exactly the strings csv and json. -/
def exportKinds : List String := ["csv", "json"]

/-! ### Results page: status rendering (Results.jsx) -/

/-- The four icons `getStatusIcon` can return (Results.jsx lines
116-127), identified by their visual description in the source. -/
inductive StatusIcon where
  | yellowSpinningClock
  | greenCheck
  | redExclamation
  | grayClock
deriving DecidableEq

/-- `getStatusIcon` (Results.jsx lines 116-127). -/
def getStatusIcon (status : String) : StatusIcon :=
  if status = "processing" then StatusIcon.yellowSpinningClock
  else if status = "completed" then StatusIcon.greenCheck
  else if status = "failed" then StatusIcon.redExclamation
  else StatusIcon.grayClock

/-- `getStatusText` (Results.jsx lines 129-140). -/
def getStatusText (status : String) : String :=
  if status = "processing" then "Processing document..."
  else if status = "completed" then "Processing completed"
  else if status = "failed" then "Processing failed"
  else "Unknown status"

/-! ### Upload form (AuthWrapper.jsx, UploadForm) -/

/-- The file extensions listed in the `accept` configuration of
`useDropzone` (UploadForm lines 55-60): .pdf, .docx, .doc and the image
extensions .png, .jpg, .jpeg, .tiff. -/
def acceptExts : List String := ["pdf", "docx", "doc", "png", "jpg", "jpeg", "tiff"]

/-- UploadForm line 45 and line 62: the 10 MB limit, 10 * 1024 * 1024 bytes. -/
def maxSizeBytes : Nat := 10 * 1024 * 1024

/-- The react-dropzone acceptance test induced by the `accept` and
`maxSize` options of `useDropzone` (UploadForm lines 53-63): a dropped
file is placed in `acceptedFiles` exactly when it matches the accept
configuration and its size does not exceed `maxSize`; otherwise it is
placed in the rejections, which this component never reads. A file is
modelled by its extension and its size in bytes. -/
def dropzoneAccepts (ext : String) (size : Nat) : Bool :=
  acceptExts.contains ext && decide (size ≤ maxSizeBytes)

/-- What one drop interaction leads to: an upload request to
/api/upload (`uploaded`), the oversize error toast of UploadForm line 46
(`sizeErrorToast`), or no visible reaction at all (`silentIgnore`). -/
inductive UploadOutcome where
  | uploaded
  | sizeErrorToast
  | silentIgnore
deriving DecidableEq

/-- `onDrop` (UploadForm lines 40-51) applied to the accepted-files list
it receives from the dropzone: with no accepted file it returns silently;
with a file it shows the size error toast when the size exceeds 10 MB and
otherwise calls `uploadFile`, which posts the file to /api/upload. -/
def onDrop (accepted : Option (String × Nat)) : UploadOutcome :=
  match accepted with
  | none => UploadOutcome.silentIgnore
  | some f =>
    if maxSizeBytes < f.2 then UploadOutcome.sizeErrorToast
    else UploadOutcome.uploaded

/-- The end-to-end outcome of dropping a single file of extension `ext`
and size `size` onto the upload zone: the dropzone filter decides whether
the file reaches `onDrop` as an accepted file. -/
def dropFile (ext : String) (size : Nat) : UploadOutcome :=
  onDrop (if dropzoneAccepts ext size then some (ext, size) else none)

/-! ### Result table (Header.jsx, ResultTable) -/

/-- The predicate used by `ResultTable` (Header.jsx ResultTable lines
84-93) to recognize the validation-warning pseudo-event: the event label
is the string Document Validation Warning, or the severity field is the
string Warning. -/
def isWarningEvent (e : Event) : Bool :=
  e.event == "Document Validation Warning" || e.severity == some "Warning"

/-- `hasWarning` (Header.jsx ResultTable lines 84-87): some event of the
list is a validation-warning pseudo-event. -/
def hasWarning (events : List Event) : Bool :=
  events.any isWarningEvent

/-- The three top-level renderings `ResultTable` chooses between: the
No Events Found card for an empty list (lines 69-81), the warning card
showing the description and suggestion of the warning pseudo-event
(lines 89-139), or the sortable event table (lines 199-423, content not
modelled further). -/
inductive TableView where
  | noEvents
  | warningView (description : Option String) (suggestion : Option String)
  | table
deriving DecidableEq

/-- The rendering decision of `ResultTable` (Header.jsx): empty list
first, then the warning branch via the first warning pseudo-event found,
else the table. -/
def resultTableView (events : List Event) : TableView :=
  if events.isEmpty then TableView.noEvents
  else
    match events.find? isWarningEvent with
    | some w => TableView.warningView w.description w.suggestion
    | none => TableView.table

/-! ### Timeline visualization (Timeline.jsx) -/

/-- JavaScript truthiness of an optional string: absent and empty strings
are falsy, every other string is truthy. Used for the
`filter(event => event.start)` step on Timeline.jsx line 11 and the
`event.end ?` and `event.location ||` tests. -/
def truthyStr : Option String → Bool
  | none => false
  | some s => !(s == "")

/-- One processed entry of `timelineData` (Timeline.jsx lines 32-44).
Timestamps are in epoch milliseconds (the value of `getTime`), the
duration in hours as a rational number. -/
structure TimelineEntry where
  id : Nat
  event : String
  startTime : Int
  endTime : Int
  duration : ℚ
  location : String
  description : String
deriving DecidableEq

/-- Parsing the `start` field of an event: the abstract date parse
`parse` applied to the start string when one is present. `parse`
abstracts the JavaScript `new Date` conversion composed with `getTime`,
returning `none` exactly on strings that yield an invalid date. -/
def parseStart (parse : String → Option Int) (e : Event) : Option Int :=
  match e.start with
  | none => none
  | some s => parse s

/-- Timeline.jsx lines 23-28: the end timestamp is the parsed `end` field
when that field is truthy and parses to a valid date, and the start
timestamp otherwise. -/
def endTimeOf (parse : String → Option Int) (e : Event) (st : Int) : Int :=
  match e.end_ with
  | none => st
  | some s => if s == "" then st else (parse s).getD st

/-- Timeline.jsx line 30: `(endDate - startDate) / (1000 * 60 * 60)`
hours when the end is strictly after the start, and 0 otherwise. -/
def rawDuration (st en : Int) : ℚ :=
  if st < en then ((en - st : Int) : ℚ) / 3600000 else 0

/-- Timeline.jsx line 40: `event.location || 'Unknown'`. -/
def locationOf (e : Event) : String :=
  match e.location with
  | none => "Unknown"
  | some l => if l == "" then "Unknown" else l

/-- The object literal built on Timeline.jsx lines 32-44 for an event at
index `i` of the filtered list whose start parsed to `st`; the duration
applies the `Math.max(duration, 0.5)` clamp of line 39. -/
def entryMk (parse : String → Option Int) (i : Nat) (e : Event) (st : Int) : TimelineEntry :=
  { id := i
    event := e.event
    startTime := st
    endTime := endTimeOf parse e st
    duration := max (rawDuration st (endTimeOf parse e st)) (1/2)
    location := locationOf e
    description := e.description.getD "" }

/-- The map body of Timeline.jsx lines 12-45: an event whose start does
not parse to a valid date becomes `null` (here `none`) and is removed by
the following `filter(Boolean)`; otherwise the processed entry is built. -/
def mkEntry (parse : String → Option Int) (i : Nat) (e : Event) : Option TimelineEntry :=
  (parseStart parse e).map (entryMk parse i e)

/-- `timelineData` (Timeline.jsx lines 6-50): keep the events with a
truthy start, process them with their index in the filtered list, drop
the entries whose start failed to parse, and sort ascending by the start
timestamp. The `sort` with comparator `a.startTime - b.startTime` is a
stable ascending sort, modelled by insertion sort on the
less-or-equal-start relation. -/
def timelineData (parse : String → Option Int) (events : List Event) : List TimelineEntry :=
  List.insertionSort (fun a b => a.startTime ≤ b.startTime)
    (((events.filter (fun e => truthyStr e.start)).enum).filterMap
      (fun p => mkEntry parse p.1 p.2))

/-- The id-free payload of a timeline entry, used to compare the
processed entries with the events they came from without referring to
the position-dependent `id` field. -/
structure EntryContent where
  event : String
  startTime : Int
  endTime : Int
  duration : ℚ
  location : String
  description : String
deriving DecidableEq

/-- Forget the `id` field of a processed entry. -/
def TimelineEntry.content (t : TimelineEntry) : EntryContent :=
  { event := t.event
    startTime := t.startTime
    endTime := t.endTime
    duration := t.duration
    location := t.location
    description := t.description }

/-- The id-free entry payload determined by an event whose start parsed
to `st`. -/
def contentOf (parse : String → Option Int) (e : Event) (st : Int) : EntryContent :=
  { event := e.event
    startTime := st
    endTime := endTimeOf parse e st
    duration := max (rawDuration st (endTimeOf parse e st)) (1/2)
    location := locationOf e
    description := e.description.getD "" }

/-- Timeline.jsx line 57: the hour of the start instant of an entry,
modelled as the UTC hour of the epoch-millisecond timestamp. All that
the development uses about it is that it lands in 0..23. -/
def getHours (t : Int) : Nat :=
  ((t / 3600000) % 24).toNat

/-- One bar of the hourly distribution chart: its axis label and its
event count. -/
structure HourBucket where
  hour : String
  events : Nat
deriving DecidableEq

/-- Timeline.jsx line 62: the axis label, the hour padded to two digits
followed by :00. -/
def hourLabel (h : Nat) : String :=
  (if h < 10 then "0" ++ toString h else toString h) ++ ":00"

/-- The count accumulated for hour `h` by the `forEach` of Timeline.jsx
lines 56-59: the number of processed entries whose start hour is `h`
(with the `|| 0` default for hours no entry falls in). -/
def hourCount (entries : List TimelineEntry) (h : Nat) : Nat :=
  (entries.filter (fun t => getHours t.startTime == h)).length

/-- `hourlyData` (Timeline.jsx lines 53-65): one bucket per hour 0..23,
labelled and carrying the count for that hour. -/
def hourlyData (entries : List TimelineEntry) : List HourBucket :=
  (List.range 24).map (fun h => { hour := hourLabel h, events := hourCount entries h })

/-- Timeline.jsx line 136: the rendering shows the fixed-point duration
followed by h when `event.duration > 0` and the text Instant otherwise. -/
def rendersInstant (t : TimelineEntry) : Bool :=
  if 0 < t.duration then false else true

instance : IsTotal TimelineEntry (fun a b => a.startTime ≤ b.startTime) :=
  ⟨fun a b => Int.le_total a.startTime b.startTime⟩

instance : IsTrans TimelineEntry (fun a b => a.startTime ≤ b.startTime) :=
  ⟨fun _ _ _ h h2 => le_trans h h2⟩

/-! ### Concrete sample inputs used to instantiate the theorems -/

/-- A sample date parse for concrete evaluations: the empty string is an
invalid date, any other string parses to its length taken as an
epoch-millisecond timestamp. -/
def demoParse (s : String) : Option Int :=
  if s = "" then none else some (s.length : Int)

/-- The validation-warning pseudo-event as the backend delivers it inside
the `events` list of a completed job that failed plausibility checks. -/
def warningEventDemo : Event :=
  { event := "Document Validation Warning"
    start := none
    end_ := none
    location := none
    description := some "The document does not appear to be a valid Statement of Facts."
    severity := some "Warning"
    suggestion := some "Please upload a maritime Statement of Facts document." }

/-- A sample event list for the timeline: two events with parseable
starts given out of order, one event with no start and one with an empty
start string. -/
def demoEvents : List Event :=
  [ { event := "Departure", start := some "aaaa", end_ := none, location := none,
      description := none, severity := none, suggestion := none },
    { event := "Arrival", start := some "bb", end_ := some "ccc", location := some "Berth 2",
      description := some "made fast", severity := none, suggestion := none },
    { event := "Shifting", start := none, end_ := none, location := none,
      description := none, severity := none, suggestion := none },
    { event := "Anchored", start := some "", end_ := none, location := none,
      description := none, severity := none, suggestion := none } ]

/-- A single-event list whose event has a parseable start and no end. -/
def demoEvents9 : List Event :=
  [ { event := "Arrival", start := some "abc", end_ := none, location := none,
      description := none, severity := none, suggestion := none } ]

/-! ## Theorems -/

/-- C1: the Results page polling loop is claimed to perform at most 30
retries and then stop with the taking-longer-than-expected condition.
The code does not do this: the timeout callback re-invokes the original
`fetchResults` closure, whose captured retry count stays 0, so after any
number of consecutive processing responses, including the 30 retries
after which the claim requires polling to stop, the chain still
schedules one more request. -/
theorem results_polling_never_stops (n : Nat) :
    chainSchedulesNext 0 (List.replicate n "processing") = true := by
  induction n with
  | zero => rfl
  | succ n ih =>
      have h1 : (fetchOutcome 0 (some "processing")).isRepoll = true := by decide
      simp [List.replicate_succ, chainSchedulesNext, h1, ih]

/-- C2: one invocation of `fetchResults` schedules a further poll if and
only if the fetched status is processing and the retry count the
invocation reads is below the maximum; in particular a fetch returning
the terminal statuses completed or failed, any other status, or a failed
request never schedules another poll. -/
theorem fetch_repoll_iff (c : Nat) (r : Option String) :
    (fetchOutcome c r).isRepoll = true ↔ r = some "processing" ∧ c < maxRetries := by
  cases r with
  | none => simp [fetchOutcome, FetchOutcome.isRepoll]
  | some s =>
      by_cases hs : s = "processing"
      · subst hs
        by_cases hc : c < maxRetries
        · simp [fetchOutcome, hc, FetchOutcome.isRepoll]
        · simp [fetchOutcome, hc, Nat.le_of_not_lt hc, FetchOutcome.isRepoll]
      · simp only [fetchOutcome, hs, false_and, if_false, Option.some.injEq]
        split
        · simp [FetchOutcome.isRepoll, hs]
        · split <;> simp [FetchOutcome.isRepoll, hs]

/-- C10: a job status outside processing, completed, failed, such as the
queued status of the job lifecycle, renders the text Unknown status and
the gray clock icon. -/
theorem unknown_status_rendering (status : String)
    (h1 : status ≠ "processing") (h2 : status ≠ "completed") (h3 : status ≠ "failed") :
    getStatusText status = "Unknown status" ∧ getStatusIcon status = StatusIcon.grayClock := by
  exact ⟨by simp [getStatusText, h1, h2, h3], by simp [getStatusIcon, h1, h2, h3]⟩

/-- C10 witness: the queued status renders as Unknown status with the
gray clock icon. -/
theorem unknown_status_rendering_witness :
    getStatusText "queued" = "Unknown status" ∧ getStatusIcon "queued" = StatusIcon.grayClock :=
  unknown_status_rendering "queued" (by decide) (by decide) (by decide)

/-- C5 counterexample: for the concrete job id a1b2c3d4, the retry
action issues a status fetch for that same job id, which is not a
document upload, so no new job is created; the claim that retry
resubmits the document as a new job fails. -/
theorem retry_refetches_same_failed_job :
    (handleRetry "a1b2c3d4").request = ApiRequest.fetchResult "a1b2c3d4" ∧
    ApiRequest.fetchResult "a1b2c3d4" ≠ ApiRequest.uploadDocument :=
  ⟨rfl, by decide⟩

/-- C5 amended: the retry action resets the loading, error and
retry-count state and re-fetches the status of the same job; it never
issues an upload request, so no new job is produced. -/
theorem retry_is_refetch (jobId : String) :
    handleRetry jobId =
      { loading := true, error := none, retryCount := 0,
        request := ApiRequest.fetchResult jobId } ∧
    (handleRetry jobId).request ≠ ApiRequest.uploadDocument :=
  ⟨rfl, fun h => ApiRequest.noConfusion h⟩

/-- C7: for every job id and every export kind offered by the result
table (csv and json), the export action posts to the export endpoint for
that job and downloads the response under the suggested filename formed
from the prefix sof_events_, the first 8 characters of the job id, a dot
and the kind. -/
theorem export_filename (jobId kind : String) (_hk : kind ∈ exportKinds) :
    (handleExport jobId kind).request = ApiRequest.exportJob jobId kind ∧
    (handleExport jobId kind).downloadName = "sof_events_" ++ jobId.take 8 ++ "." ++ kind := by
  exact ⟨rfl, rfl⟩

/-- C7 witness: exporting job 1234567890ab as csv downloads under
sof_events_12345678.csv. -/
theorem export_filename_witness :
    "csv" ∈ exportKinds ∧
    (handleExport "1234567890ab" "csv").request = ApiRequest.exportJob "1234567890ab" "csv" ∧
    (handleExport "1234567890ab" "csv").downloadName = "sof_events_12345678.csv" := by
  have h := export_filename "1234567890ab" "csv" (by decide)
  exact ⟨by decide, h.1, h.2.trans (by decide)⟩

/-- C4 counterexample: an 11 MB pdf file and a small txt file are both
rejected without any upload request, but also without any error message:
the dropzone filter rejects them before `onDrop` runs, so the only error
toast in the component (the oversize message of line 46) is never shown.
This refutes the part of the claim stating that an oversized or
wrong-type file is rejected with an error message. -/
theorem rejected_files_no_error_message :
    dropFile "pdf" (10 * 1024 * 1024 + 1) = UploadOutcome.silentIgnore ∧
    dropFile "txt" 1024 = UploadOutcome.silentIgnore := by
  exact ⟨by decide, by decide⟩

/-- C4 amended: an upload request is sent if and only if the dropped
file has one of the accepted extensions (pdf, docx, doc, png, jpg, jpeg,
tiff) and is at most 10 MB; every other file is rejected silently, and
the oversize error toast inside `onDrop` is unreachable because the
dropzone has already filtered oversized files out. -/
theorem upload_request_iff (ext : String) (size : Nat) :
    (dropFile ext size = UploadOutcome.uploaded ↔
      ext ∈ acceptExts ∧ size ≤ maxSizeBytes) ∧
    dropFile ext size ≠ UploadOutcome.sizeErrorToast := by
  unfold dropFile dropzoneAccepts onDrop
  by_cases hx : ext ∈ acceptExts
  · by_cases hsz : size ≤ maxSizeBytes
    · have hlt : ¬ (maxSizeBytes < size) := not_lt.mpr hsz
      simp [List.elem_iff.mpr hx, hx, hsz, hlt]
    · simp [hsz]
  · have : acceptExts.contains ext = false := by
      cases h : acceptExts.contains ext
      · rfl
      · exact absurd (List.elem_iff.mp h) hx
    simp [this, hx]

/-- C3 counterexample: a completed job whose document failed the
plausibility checks arrives with a one-element `events` list holding the
validation-warning pseudo-event; that list is non-empty while the
warning is set, and the result table renders the warning card with the
description and suggestion taken from that pseudo-event. With the empty
event list the claim prescribes, the table instead renders the No Events
Found card and the warning payload is never displayed. -/
theorem warning_inside_nonempty_events :
    hasWarning [warningEventDemo] = true ∧
    ([warningEventDemo] : List Event) ≠ [] ∧
    resultTableView [warningEventDemo] =
      TableView.warningView
        (some "The document does not appear to be a valid Statement of Facts.")
        (some "Please upload a maritime Statement of Facts document.") ∧
    resultTableView ([] : List Event) = TableView.noEvents := by
  exact ⟨by decide, by simp, by decide, rfl⟩

/-- C3 amended: a job that failed plausibility checks still reaches
completed, but the warning payload travels as a pseudo-event inside a
non-empty `events` list (label Document Validation Warning or severity
Warning, carrying the description and suggestion); the result table
shows the warning card exactly when the list is non-empty and contains
such a pseudo-event, and shows the No Events Found card exactly when the
list is empty. -/
theorem warning_view_characterization (events : List Event) :
    (resultTableView events = TableView.noEvents ↔ events = []) ∧
    ((∃ d s, resultTableView events = TableView.warningView d s) ↔
      (events ≠ [] ∧ hasWarning events = true)) := by
  cases events with
  | nil => simp [resultTableView, hasWarning]
  | cons a l =>
      refine ⟨?_, ?_⟩
      · simp only [resultTableView, List.isEmpty_cons, Bool.false_eq_true, if_false]
        cases hf : (a :: l).find? isWarningEvent <;> simp
      · simp only [resultTableView, List.isEmpty_cons, Bool.false_eq_true, if_false]
        cases hf : (a :: l).find? isWarningEvent with
        | none =>
            have hw : hasWarning (a :: l) = false := by
              rw [hasWarning, List.any_eq_false]
              exact List.find?_eq_none.mp hf
            simp [hw]
        | some w =>
            have hw : hasWarning (a :: l) = true := by
              rw [hasWarning, List.any_eq_true]
              exact ⟨w, List.mem_of_find?_eq_some hf, List.find?_some hf⟩
            simp [hw]

/-- C3 amended witness: at the concrete one-element warned list the
characterization yields the warning card, and at the empty list it
yields the No Events Found card. -/
theorem warning_view_characterization_witness :
    ((∃ d s, resultTableView [warningEventDemo] = TableView.warningView d s) ↔
      (([warningEventDemo] : List Event) ≠ [] ∧ hasWarning [warningEventDemo] = true)) ∧
    (resultTableView ([] : List Event) = TableView.noEvents ↔ ([] : List Event) = []) :=
  ⟨(warning_view_characterization [warningEventDemo]).2,
    (warning_view_characterization ([] : List Event)).1⟩

/-- Dropping the id of a processed entry leaves exactly the payload
determined by the event and its parsed start. -/
theorem content_entryMk (parse : String → Option Int) (i : Nat) (e : Event) (st : Int) :
    (entryMk parse i e st).content = contentOf parse e st := rfl

/-- The id-free payloads of the entries processed from an indexed list
of events do not depend on the indices: they are the payloads of the
events whose start parses. -/
theorem enumFrom_filterMap_content (parse : String → Option Int) :
    ∀ (l : List Event) (n : Nat),
      ((List.enumFrom n l).filterMap (fun p => mkEntry parse p.1 p.2)).map
          TimelineEntry.content
        = l.filterMap (fun e => (parseStart parse e).map (contentOf parse e))
  | [], _ => rfl
  | e :: l, n => by
      have ih := enumFrom_filterMap_content parse l (n + 1)
      rw [show List.enumFrom n (e :: l) = (n, e) :: List.enumFrom (n + 1) l from rfl]
      cases hp : parseStart parse e with
      | none =>
          have hh : mkEntry parse n e = none := by rw [mkEntry, hp]; rfl
          have hc : (parseStart parse e).map (contentOf parse e) = none := by rw [hp]; rfl
          rw [List.filterMap_cons, List.filterMap_cons]
          simp only [hh, hc]
          exact ih
      | some st =>
          have hh : mkEntry parse n e = some (entryMk parse n e st) := by rw [mkEntry, hp]; rfl
          have hc : (parseStart parse e).map (contentOf parse e)
              = some (contentOf parse e st) := by rw [hp]; rfl
          rw [List.filterMap_cons, List.filterMap_cons]
          simp only [hh, hc, List.map_cons]
          rw [ih, content_entryMk]

/-- An event failing the truthiness test on its start field has no
parseable start, provided the parse rejects the empty string. -/
theorem truthy_false_parseStart (parse : String → Option Int) (hempty : parse "" = none)
    (e : Event) (h : truthyStr e.start = false) : parseStart parse e = none := by
  cases hs : e.start with
  | none => simp [parseStart, hs]
  | some s =>
      have hs' : s = "" := by
        rw [hs] at h
        simpa [truthyStr] using h
      simp [parseStart, hs, hs', hempty]

/-- Restricting to events with a truthy start before collecting the
parseable ones collects exactly the parseable ones, provided the parse
rejects the empty string. -/
theorem filter_truthy_filterMap (parse : String → Option Int) (hempty : parse "" = none) :
    ∀ l : List Event,
      (l.filter (fun e => truthyStr e.start)).filterMap
          (fun e => (parseStart parse e).map (contentOf parse e))
        = l.filterMap (fun e => (parseStart parse e).map (contentOf parse e))
  | [] => rfl
  | e :: l => by
      have ih := filter_truthy_filterMap parse hempty l
      cases ht : truthyStr e.start with
      | true => simp [List.filter_cons, ht, List.filterMap_cons, ih]
      | false =>
          have hp := truthy_false_parseStart parse hempty e ht
          simp [List.filter_cons, ht, List.filterMap_cons, hp, ih]

/-- C6: the timeline renders exactly the events whose start field parses
to a valid date, in ascending order of the start timestamp, whatever
order the pipeline produced them in: the id-free payloads of the
processed sequence are a permutation of the payloads of the events with
a parseable start, and the processed sequence is sorted by start
timestamp. The hypothesis states that the date parse rejects the empty
string, as the JavaScript Date conversion does. -/
theorem timeline_contents_exact (parse : String → Option Int) (hempty : parse "" = none)
    (events : List Event) :
    ((timelineData parse events).map TimelineEntry.content).Perm
        (events.filterMap (fun e => (parseStart parse e).map (contentOf parse e))) ∧
    (timelineData parse events).Pairwise (fun a b => a.startTime ≤ b.startTime) := by
  constructor
  · have hperm :=
      (List.perm_insertionSort (fun a b : TimelineEntry => a.startTime ≤ b.startTime)
        (((events.filter (fun e => truthyStr e.start)).enum).filterMap
          (fun p => mkEntry parse p.1 p.2))).map TimelineEntry.content
    have h1 : ((((events.filter (fun e => truthyStr e.start)).enum).filterMap
        (fun p => mkEntry parse p.1 p.2)).map TimelineEntry.content)
        = events.filterMap (fun e => (parseStart parse e).map (contentOf parse e)) := by
      rw [show (events.filter (fun e => truthyStr e.start)).enum
          = List.enumFrom 0 (events.filter (fun e => truthyStr e.start)) from rfl]
      rw [enumFrom_filterMap_content]
      exact filter_truthy_filterMap parse hempty events
    exact h1 ▸ hperm
  · exact List.sorted_insertionSort (fun a b : TimelineEntry => a.startTime ≤ b.startTime) _

/-- C6 witness: at the sample parse and the sample out-of-order event
list, the processed payloads are a permutation of the payloads of the
two events with a parseable start and the processed sequence is sorted
by start timestamp. -/
theorem timeline_contents_exact_witness :
    ((timelineData demoParse demoEvents).map TimelineEntry.content).Perm
        (demoEvents.filterMap (fun e => (parseStart demoParse e).map (contentOf demoParse e))) ∧
    (timelineData demoParse demoEvents).Pairwise (fun a b => a.startTime ≤ b.startTime) :=
  timeline_contents_exact demoParse (by decide) demoEvents

/-- The indicator of a value at least `n` sums to 0 over the hours below
`n`. -/
theorem sum_indicator_ge (x : Nat) :
    ∀ n, n ≤ x → ((List.range n).map (fun k => if x = k then (1 : Nat) else 0)).sum = 0
  | 0, _ => rfl
  | Nat.succ n, h => by
      rw [List.range_succ, List.map_append, List.sum_append]
      have h1 := sum_indicator_ge x n (Nat.le_of_succ_le h)
      have hx : x ≠ n := by omega
      simp [h1, hx]

/-- The indicator of a value below `n` sums to 1 over the hours below
`n`. -/
theorem sum_indicator_lt (x : Nat) :
    ∀ n, x < n → ((List.range n).map (fun k => if x = k then (1 : Nat) else 0)).sum = 1
  | 0, h => absurd h (by omega)
  | Nat.succ n, h => by
      rw [List.range_succ, List.map_append, List.sum_append]
      by_cases hx : x = n
      · subst hx
        simp [sum_indicator_ge x x (le_refl x)]
      · have h1 := sum_indicator_lt x n (by omega)
        simp [h1, hx]

/-- The start hour of an entry is one of the 24 hours of a day. -/
theorem getHours_lt (t : Int) : getHours t < 24 := by
  unfold getHours
  omega

/-- The count for hour `h` over a list with one more entry grows by the
indicator of that entry falling in hour `h`. -/
theorem hourCount_cons (t : TimelineEntry) (l : List TimelineEntry) (h : Nat) :
    hourCount (t :: l) h = (if getHours t.startTime = h then 1 else 0) + hourCount l h := by
  unfold hourCount
  rw [List.filter_cons]
  by_cases hx : getHours t.startTime = h
  · simp [hx, Nat.add_comm]
  · have hb : (getHours t.startTime == h) = false := by simpa using hx
    simp [hx, hb]

/-- C8: the hourly distribution of the timeline has exactly 24 buckets,
labelled 00:00 through 23:00 in order, and the per-hour counts sum to
the number of entries of the processed timeline: every processed entry
is counted exactly once, in the bucket of its start hour. -/
theorem hourly_distribution (entries : List TimelineEntry) :
    (hourlyData entries).length = 24 ∧
    (hourlyData entries).map HourBucket.hour = (List.range 24).map hourLabel ∧
    ((hourlyData entries).map HourBucket.events).sum = entries.length := by
  refine ⟨by simp [hourlyData], by simp [hourlyData], ?_⟩
  have key : ∀ l : List TimelineEntry,
      ((List.range 24).map (fun h => hourCount l h)).sum = l.length := by
    intro l
    induction l with
    | nil => decide
    | cons t ts ih =>
        have hfun : (fun h => hourCount (t :: ts) h)
            = fun h => (if getHours t.startTime = h then 1 else 0) + hourCount ts h := by
          funext h
          exact hourCount_cons t ts h
        rw [hfun, List.sum_map_add, ih, sum_indicator_lt (getHours t.startTime) 24
          (getHours_lt t.startTime)]
        simp [Nat.add_comm]
  have hmap : (hourlyData entries).map HourBucket.events
      = (List.range 24).map (fun h => hourCount entries h) := by
    simp [hourlyData]
  rw [hmap, key]

/-- C9: every entry of the processed timeline has a duration of at least
half an hour, and therefore the Instant rendering branch, taken only
when the duration is not positive, is unreachable. -/
theorem timeline_min_duration (parse : String → Option Int) (events : List Event)
    (t : TimelineEntry) (ht : t ∈ timelineData parse events) :
    (1/2 : ℚ) ≤ t.duration ∧ rendersInstant t = false := by
  unfold timelineData at ht
  have hmem := (List.perm_insertionSort
    (fun a b : TimelineEntry => a.startTime ≤ b.startTime) _).mem_iff.mp ht
  rw [List.mem_filterMap] at hmem
  obtain ⟨p, -, hp⟩ := hmem
  rw [mkEntry] at hp
  cases hps : parseStart parse p.2 with
  | none => rw [hps] at hp; simp at hp
  | some st =>
      rw [hps, Option.map_some'] at hp
      obtain rfl := Option.some.inj hp
      constructor
      · exact le_max_right _ _
      · have hpos : (0 : ℚ) < (entryMk parse p.1 p.2 st).duration :=
          lt_of_lt_of_le (by norm_num) (le_max_right _ _)
        simp [rendersInstant, hpos]

/-- C9 witness: the single processed entry of the sample one-event list
has duration exactly half an hour and is not rendered as Instant. -/
theorem timeline_min_duration_witness :
    (1/2 : ℚ) ≤ (TimelineEntry.mk 0 "Arrival" 3 3 (1/2) "Unknown" "").duration ∧
    rendersInstant (TimelineEntry.mk 0 "Arrival" 3 3 (1/2) "Unknown" "") = false :=
  timeline_min_duration demoParse demoEvents9 _ (by
    have hd : (max (rawDuration 3 3) (1/2) : ℚ) = 1/2 := by
      rw [rawDuration]
      norm_num
    have h1 : timelineData demoParse demoEvents9
        = [TimelineEntry.mk 0 "Arrival" 3 3 (max (rawDuration 3 3) (1/2)) "Unknown" ""] := rfl
    rw [h1, hd]
    exact List.mem_singleton.mpr rfl)

end Sof
